import Mathlib

/-!
Verification development for the SupplyGuard query-routing and
multi-agent orchestration engine.  The backend analysis code is embedded
shallowly: pure scoring strategies become Lean functions over `ℚ`,
configuration tables become concrete lists, and the frontend React
handlers become explicit state-transition functions.
-/

namespace SupplyGuard

/-- The four discrete risk levels used throughout the system. -/
inductive RiskLevel
  | low
  | medium
  | high
  | critical
deriving DecidableEq

/-- Numeric severity rank of a risk level (`low` least severe). -/
def RiskLevel.rank : RiskLevel → Nat
  | .low => 0
  | .medium => 1
  | .high => 2
  | .critical => 3

/-- The more severe of two risk levels. -/
def maxLevel (a b : RiskLevel) : RiskLevel :=
  if b.rank ≤ a.rank then a else b

/-- A set of four ordered cut points naming the lower bounds of the
`medium`, `high` and `critical` bands (the `critical` field is carried
in the configuration shape but the classification uses the first three
boundaries, mirroring the documented band tables). -/
structure Thresholds where
  low : ℚ
  medium : ℚ
  high : ℚ
  critical : ℚ

/-- Modelled from the spec: inclusive-lower band classification of a
numeric metric against configured cut points — a value exactly at a cut
point maps to the higher (more severe) band.  The strategy code itself
is not under `src/`; this follows §4.1/§8 of the spec and the threshold
tables recorded in `test/TEST_DOCUMENTATION.md`. -/
def classifyMetric (t : Thresholds) (v : ℚ) : RiskLevel :=
  if v < t.low then .low
  else if v < t.medium then .medium
  else if v < t.high then .high
  else .critical

/-- Default score→level band table from `test_config.py`
(`RISK_THRESHOLDS = {low:30, medium:60, high:80, critical:90}`),
giving the shared bands `{low:<30, medium:30-59, high:60-79, critical:≥80}`. -/
def RISK_THRESHOLDS : Thresholds := ⟨30, 60, 80, 90⟩

/-- The shared score→level mapping over the default bands. -/
def scoreToLevel (s : ℚ) : RiskLevel :=
  classifyMetric RISK_THRESHOLDS s

/-- Threshold-strategy cut points for delay percentage
(`{'low': 10, 'medium': 25, 'high': 50, 'critical': 75}`). -/
def delayPercentageThresholds : Thresholds := ⟨10, 25, 50, 75⟩

/-- Threshold-strategy cut points for high-impact event count
(`{'low': 2, 'medium': 5, 'high': 10, 'critical': 15}`). -/
def highImpactEventThresholds : Thresholds := ⟨2, 5, 10, 15⟩

/-- Threshold-strategy cut points for average delay days
(`{'low': 3, 'medium': 7, 'high': 14, 'critical': 30}`). -/
def averageDelayDaysThresholds : Thresholds := ⟨3, 7, 14, 30⟩

/-- Result of the Threshold strategy: the three per-metric levels and
the combined overall level. -/
structure ThresholdResult where
  delayLevel : RiskLevel
  eventLevel : RiskLevel
  avgDelayLevel : RiskLevel
  overall : RiskLevel

/-- Combine a list of per-metric risk levels by folding to the most
severe one. -/
def combineLevels (ls : List RiskLevel) : RiskLevel :=
  ls.foldl maxLevel .low

/-- Modelled from the spec: the Threshold strategy classifies each of
delay percentage, high-impact event count and average delay days
independently against its configured cut points and combines the
per-metric levels into the most severe overall level (§4.1). -/
def thresholdAnalyze (delayPct eventCount avgDelayDays : ℚ) : ThresholdResult :=
  let l1 := classifyMetric delayPercentageThresholds delayPct
  let l2 := classifyMetric highImpactEventThresholds eventCount
  let l3 := classifyMetric averageDelayDaysThresholds avgDelayDays
  ⟨l1, l2, l3, combineLevels [l1, l2, l3]⟩

lemma maxLevel_low_left (l : RiskLevel) : maxLevel .low l = l := by
  cases l <;> rfl

lemma rank_le_maxLevel_left (a b : RiskLevel) : a.rank ≤ (maxLevel a b).rank := by
  cases a <;> cases b <;> decide

lemma rank_le_maxLevel_right (a b : RiskLevel) : b.rank ≤ (maxLevel a b).rank := by
  cases a <;> cases b <;> decide

lemma maxLevel_eq_or (a b : RiskLevel) : maxLevel a b = a ∨ maxLevel a b = b := by
  cases a <;> cases b <;> decide

lemma combineLevels_three (a b c : RiskLevel) :
    combineLevels [a, b, c] = maxLevel (maxLevel a b) c := by
  simp only [combineLevels, List.foldl, maxLevel_low_left]

/-- Claim C2: every score in [0,100] maps through the default bands
`low < 30`, `medium 30-59`, `high 60-79`, `critical ≥ 80`, each band
boundary inclusive of its lower bound; in particular a delay percentage
of exactly 10 under cut points `{low:10, medium:25, ...}` classifies as
`medium`, not `low`. -/
theorem scoreToLevel_default_bands (s : ℚ) (_h0 : 0 ≤ s) (_h100 : s ≤ 100) :
    ((scoreToLevel s = .low ↔ s < 30) ∧
     (scoreToLevel s = .medium ↔ 30 ≤ s ∧ s < 60) ∧
     (scoreToLevel s = .high ↔ 60 ≤ s ∧ s < 80) ∧
     (scoreToLevel s = .critical ↔ 80 ≤ s)) ∧
    classifyMetric delayPercentageThresholds 10 = .medium := by
  constructor
  · simp only [scoreToLevel, classifyMetric, RISK_THRESHOLDS]
    split_ifs with h1 h2 h3
    · exact ⟨iff_of_true rfl h1,
        iff_of_false (by decide) (fun hh => by linarith [hh.1]),
        iff_of_false (by decide) (fun hh => by linarith [hh.1]),
        iff_of_false (by decide) (fun hh => by linarith)⟩
    · exact ⟨iff_of_false (by decide) (fun hh => h1 hh),
        iff_of_true rfl ⟨not_lt.mp h1, h2⟩,
        iff_of_false (by decide) (fun hh => by linarith [hh.1]),
        iff_of_false (by decide) (fun hh => by linarith)⟩
    · exact ⟨iff_of_false (by decide) (fun hh => by linarith [not_lt.mp h2]),
        iff_of_false (by decide) (fun hh => h2 hh.2),
        iff_of_true rfl ⟨not_lt.mp h2, h3⟩,
        iff_of_false (by decide) (fun hh => by linarith)⟩
    · exact ⟨iff_of_false (by decide) (fun hh => by linarith [not_lt.mp h3]),
        iff_of_false (by decide) (fun hh => h2 hh.2),
        iff_of_false (by decide) (fun hh => h3 hh.2),
        iff_of_true rfl (not_lt.mp h3)⟩
  · simp only [classifyMetric, delayPercentageThresholds]
    norm_num

/-- Witness for C2 at the concrete score 45 (a `medium` score) together
with the boundary example. -/
theorem scoreToLevel_default_bands_witness :
    (scoreToLevel 45 = .medium ↔ (30 : ℚ) ≤ 45 ∧ (45 : ℚ) < 60) ∧
    classifyMetric delayPercentageThresholds 10 = .medium := by
  have h := scoreToLevel_default_bands 45 (by norm_num) (by norm_num)
  exact ⟨h.1.2.1, h.2⟩

/-- Claim C3: for every combination of the three metrics the Threshold
strategy's overall level is the maximum of the independently classified
per-metric levels — it is at least as severe as each of them and equal
to one of them — and in particular delay at `low` with events at
`critical` yields overall `critical`. -/
theorem thresholdAnalyze_overall_is_max (d e a : ℚ) :
    ((thresholdAnalyze d e a).overall =
       maxLevel (maxLevel (thresholdAnalyze d e a).delayLevel
                          (thresholdAnalyze d e a).eventLevel)
                (thresholdAnalyze d e a).avgDelayLevel ∧
     (thresholdAnalyze d e a).delayLevel.rank ≤ (thresholdAnalyze d e a).overall.rank ∧
     (thresholdAnalyze d e a).eventLevel.rank ≤ (thresholdAnalyze d e a).overall.rank ∧
     (thresholdAnalyze d e a).avgDelayLevel.rank ≤ (thresholdAnalyze d e a).overall.rank ∧
     ((thresholdAnalyze d e a).overall = (thresholdAnalyze d e a).delayLevel ∨
      (thresholdAnalyze d e a).overall = (thresholdAnalyze d e a).eventLevel ∨
      (thresholdAnalyze d e a).overall = (thresholdAnalyze d e a).avgDelayLevel)) ∧
    ((thresholdAnalyze 5 20 0).delayLevel = .low ∧
     (thresholdAnalyze 5 20 0).eventLevel = .critical ∧
     (thresholdAnalyze 5 20 0).overall = .critical) := by
  constructor
  · simp only [thresholdAnalyze, combineLevels_three]
    refine ⟨trivial, ?_, ?_, ?_, ?_⟩
    · exact le_trans (rank_le_maxLevel_left _ _) (rank_le_maxLevel_left _ _)
    · exact le_trans (rank_le_maxLevel_right _ _) (rank_le_maxLevel_left _ _)
    · exact rank_le_maxLevel_right _ _
    · rcases maxLevel_eq_or (maxLevel (classifyMetric delayPercentageThresholds d)
        (classifyMetric highImpactEventThresholds e))
        (classifyMetric averageDelayDaysThresholds a) with h | h
      · rcases maxLevel_eq_or (classifyMetric delayPercentageThresholds d)
          (classifyMetric highImpactEventThresholds e) with h2 | h2
        · exact Or.inl (h.trans h2)
        · exact Or.inr (Or.inl (h.trans h2))
      · exact Or.inr (Or.inr h)
  · refine ⟨?_, ?_, ?_⟩ <;>
      simp only [thresholdAnalyze, combineLevels, List.foldl, maxLevel,
        RiskLevel.rank, classifyMetric, delayPercentageThresholds,
        highImpactEventThresholds, averageDelayDaysThresholds] <;>
      norm_num

/-- Modelled from the spec: dimension-specific weight lookup for the
Risk Aggregator — a dimension with no configured weight defaults to an
equal weight of 1 (§4.2). -/
def dimensionWeight (weights : List (String × ℚ)) (d : String) : ℚ :=
  match weights.find? (fun p => p.1 == d) with
  | some p => p.2
  | none => 1

/-- Default aggregator configuration: no dimension-specific weights
configured, so every dimension weighs equally. -/
def defaultDimensionWeights : List (String × ℚ) := []

/-- Modelled from the spec: Risk Aggregator overall numeric score =
weighted average of the input dimension scores (§4.2). -/
def aggregateScore (weights : List (String × ℚ)) (inputs : List (String × ℚ)) : ℚ :=
  if (inputs.map (fun p => dimensionWeight weights p.1)).sum = 0 then 0
  else (inputs.map (fun p => dimensionWeight weights p.1 * p.2)).sum /
       (inputs.map (fun p => dimensionWeight weights p.1)).sum

/-- Modelled from the spec: the aggregator's overall level is the level
of the overall numeric score per the shared score→level bands, not the
maximum of the input levels (§4.2). -/
def aggregateLevel (weights : List (String × ℚ)) (inputs : List (String × ℚ)) : RiskLevel :=
  scoreToLevel (aggregateScore weights inputs)

lemma scoreToLevel_zero : scoreToLevel 0 = .low := by
  norm_num [scoreToLevel, classifyMetric, RISK_THRESHOLDS]

lemma defaultWeights_sum_length (l : List (String × ℚ)) :
    (l.map (fun p => dimensionWeight defaultDimensionWeights p.1)).sum = (l.length : ℚ) := by
  induction l with
  | nil => simp
  | cons x t ih =>
      simp only [List.map_cons, List.sum_cons, List.length_cons]
      rw [ih, show dimensionWeight defaultDimensionWeights x.1 = 1 from rfl]
      push_cast
      ring

lemma defaultWeights_weighted_sum (l : List (String × ℚ)) :
    (l.map (fun p => dimensionWeight defaultDimensionWeights p.1 * p.2)).sum =
      (l.map Prod.snd).sum := by
  induction l with
  | nil => rfl
  | cons x t ih =>
      simp only [List.map_cons, List.sum_cons, ih,
        dimensionWeight, defaultDimensionWeights, List.find?, one_mul]

/-- Claim C1: with the default (equal) weights the Risk Aggregator's
overall score is the plain average of the input dimension scores and
its overall level is the level of that averaged score through the
shared bands — not the maximum of the input levels; in particular
political = 80 and logistics = 20 average to 50, level `medium`,
whereas the max of the input levels would be `critical`. -/
theorem riskAggregator_weighted_average :
    (∀ inputs : List (String × ℚ), inputs ≠ [] →
       aggregateScore defaultDimensionWeights inputs =
         (inputs.map Prod.snd).sum / (inputs.length : ℚ)) ∧
    aggregateScore defaultDimensionWeights [("political", 80), ("logistics", 20)] = 50 ∧
    aggregateLevel defaultDimensionWeights [("political", 80), ("logistics", 20)] = .medium ∧
    maxLevel (scoreToLevel 80) (scoreToLevel 20) = .critical ∧
    aggregateLevel defaultDimensionWeights [("political", 80), ("logistics", 20)] ≠
      maxLevel (scoreToLevel 80) (scoreToLevel 20) := by
  have hgen : ∀ inputs : List (String × ℚ), inputs ≠ [] →
      aggregateScore defaultDimensionWeights inputs =
        (inputs.map Prod.snd).sum / (inputs.length : ℚ) := by
    intro inputs hne
    have hlen : (inputs.length : ℚ) ≠ 0 := by
      exact_mod_cast fun h => hne (List.length_eq_zero.mp (by exact_mod_cast h))
    simp only [aggregateScore, defaultWeights_sum_length, defaultWeights_weighted_sum,
      if_neg hlen]
  have h50 : aggregateScore defaultDimensionWeights
      [("political", (80 : ℚ)), ("logistics", 20)] = 50 := by
    rw [hgen _ (by simp)]
    norm_num
  have hlev : aggregateLevel defaultDimensionWeights
      [("political", (80 : ℚ)), ("logistics", 20)] = .medium := by
    rw [aggregateLevel, h50]
    norm_num [scoreToLevel, classifyMetric, RISK_THRESHOLDS]
  have hmax : maxLevel (scoreToLevel 80) (scoreToLevel 20) = .critical := by
    norm_num [scoreToLevel, classifyMetric, RISK_THRESHOLDS, maxLevel, RiskLevel.rank]
  refine ⟨hgen, h50, hlev, hmax, ?_⟩
  rw [hlev, hmax]
  decide

/-- Witness for C1: the weighted-average law applied to the concrete
two-dimension input political = 80, logistics = 20. -/
theorem riskAggregator_weighted_average_witness :
    aggregateScore defaultDimensionWeights [("political", 80), ("logistics", 20)] =
      (([("political", (80 : ℚ)), ("logistics", 20)]).map Prod.snd).sum /
        (([("political", (80 : ℚ)), ("logistics", 20)]).length : ℚ) :=
  riskAggregator_weighted_average.1 _ (by simp)

/-- A delivery schedule record: whether it is delayed and by how many
days. -/
structure Schedule where
  delayed : Bool
  delayDays : ℚ

/-- A news-event record: whether it is a high-impact event. -/
structure NewsEvent where
  highImpact : Bool

/-- A dimension risk score: numeric score, discretized level, and an
explicit insufficient-data indication. -/
structure RiskScore where
  score : ℚ
  level : RiskLevel
  insufficientData : Bool
deriving DecidableEq

/-- Modelled from the spec: delay percentage = delayed-count /
total-count × 100 over a schedule collection, 0 on an empty
collection (§4.1). -/
def delayPercentage (schedules : List Schedule) : ℚ :=
  if schedules.length = 0 then 0
  else ((schedules.filter (fun s => s.delayed)).length : ℚ) / (schedules.length : ℚ) * 100

/-- Modelled from the spec: high-impact-event ratio over a news-event
collection, 0 on an empty collection (§4.1). -/
def highImpactRatio (events : List NewsEvent) : ℚ :=
  if events.length = 0 then 0
  else ((events.filter (fun e => e.highImpact)).length : ℚ) / (events.length : ℚ)

/-- Modelled from the spec: the Statistical strategy combines the delay
score and the event score by the fixed weighted sum
`0.5 × delay_score + 0.5 × event_score`, failing closed with an
insufficient-data note when a collection is empty (§4.1, §7). -/
def statisticalAnalyze (schedules : List Schedule) (events : List NewsEvent) : RiskScore :=
  let s := (1 / 2) * delayPercentage schedules + (1 / 2) * (highImpactRatio events * 100)
  ⟨s, scoreToLevel s, schedules.isEmpty || events.isEmpty⟩

/-- Lower-cased character stream of a string (the case-insensitive
matching primitive). -/
def lowerChars (s : String) : List Char := s.data.map Char.toLower

/-- Number of positions at which `pat` occurs as a contiguous block of
`text`. -/
def countOccs (pat : List Char) : List Char → Nat
  | [] => 0
  | c :: rest => (if List.isPrefixOf pat (c :: rest) then 1 else 0) + countOccs pat rest

/-- Case-insensitive substring match count of a keyword in a text. -/
def matchCount (keyword text : String) : Nat :=
  countOccs (lowerChars keyword) (lowerChars text)

/-- A weighted keyword category of the Keyword strategy. -/
structure KeywordCategory where
  weight : ℚ
  keywords : List String

/-- Modelled from the spec: raw Keyword-strategy score of one text,
`Σ (category_weight × match_count)` over the configured
categories (§4.1). -/
def keywordScoreRaw (cfg : List KeywordCategory) (text : String) : ℚ :=
  (cfg.map (fun c => c.weight * ((c.keywords.map (fun k => matchCount k text)).sum : ℚ))).sum

/-- Modelled from the spec: the Keyword strategy sums the raw scores of
the scanned texts, caps the total at 100, and flags an empty input
collection as insufficient data (§4.1, §7). -/
def keywordAnalyze (cfg : List KeywordCategory) (texts : List String) : RiskScore :=
  let s := min ((texts.map (keywordScoreRaw cfg)).sum) 100
  ⟨s, scoreToLevel s, texts.isEmpty⟩

/-- Modelled from the spec: the four weighted keyword categories
(political, logistics, tariff, schedule) with the keyword lists recorded
in the test documentation; the category weights themselves are
configuration, so representative defaults are used. -/
def defaultKeywordConfig : List KeywordCategory :=
  [⟨10, ["war", "conflict", "sanctions", "election", "government", "policy"]⟩,
   ⟨8, ["blockade", "strike", "congestion", "delay", "port", "shipping"]⟩,
   ⟨9, ["trade war", "embargo", "tariff", "duty", "customs", "quota"]⟩,
   ⟨7, ["cancelled", "delayed", "postponed", "schedule", "timeline"]⟩]

/-- Claim C4: on empty input collections the Statistical and Keyword
strategies return the defined zero/low risk score with the explicit
insufficient-data indication (they are total functions, so no error can
propagate), and the Keyword strategy scores any collection of texts
with zero keyword matches as score 0, level `low`. -/
theorem empty_input_strategies :
    statisticalAnalyze [] [] = ⟨0, .low, true⟩ ∧
    (∀ cfg, keywordAnalyze cfg [] = ⟨0, .low, true⟩) ∧
    (∀ cfg texts, (∀ t ∈ texts, ∀ c ∈ cfg, ∀ k ∈ c.keywords, matchCount k t = 0) →
       (keywordAnalyze cfg texts).score = 0 ∧ (keywordAnalyze cfg texts).level = .low) := by
  refine ⟨?_, ?_, ?_⟩
  · simp [statisticalAnalyze, delayPercentage, highImpactRatio, scoreToLevel_zero]
  · intro cfg
    simp [keywordAnalyze, scoreToLevel_zero, min_eq_left (by norm_num : (0:ℚ) ≤ 100)]
  · intro cfg texts h
    have hraw : ∀ t ∈ texts, keywordScoreRaw cfg t = 0 := by
      intro t ht
      apply List.sum_eq_zero
      intro x hx
      rcases List.mem_map.mp hx with ⟨c, hc, rfl⟩
      have hz : (c.keywords.map (fun k => matchCount k t)).sum = 0 := by
        apply List.sum_eq_zero
        intro n hn
        rcases List.mem_map.mp hn with ⟨k, hk, rfl⟩
        exact h t ht c hc k hk
      simp [hz]
    have hsum : (texts.map (keywordScoreRaw cfg)).sum = 0 := by
      apply List.sum_eq_zero
      intro x hx
      rcases List.mem_map.mp hx with ⟨t, ht, rfl⟩
      exact hraw t ht
    constructor
    · simp [keywordAnalyze, hsum, min_eq_left (by norm_num : (0:ℚ) ≤ 100)]
    · simp [keywordAnalyze, hsum, min_eq_left (by norm_num : (0:ℚ) ≤ 100), scoreToLevel_zero]

/-- Witness for C4: the default keyword configuration applied to the
match-free text `"hello"` yields score 0 and level `low`. -/
theorem empty_input_strategies_witness :
    (keywordAnalyze defaultKeywordConfig ["hello"]).score = 0 ∧
    (keywordAnalyze defaultKeywordConfig ["hello"]).level = .low :=
  empty_input_strategies.2.2 defaultKeywordConfig ["hello"] (by decide)

/-- The configured per-country base risk table recorded in the test
documentation. -/
def countryRiskTable : List (String × ℚ) :=
  [("United States", 20), ("Germany", 15), ("Japan", 18),
   ("China", 45), ("India", 50),
   ("Russia", 70), ("Iran", 85), ("North Korea", 95)]

/-- Base risk lookup for a country; `none` when the country is not in
the configured table. -/
def lookupCountryRisk (c : String) : Option ℚ :=
  (countryRiskTable.find? (fun p => p.1 == c)).map (fun p => p.2)

/-- Result of the Trade-route strategy: an optional combined score and
the explicit list of unrecognized countries on the route. -/
structure TradeRouteResult where
  score : Option ℚ
  unknownCountries : List String

/-- Modelled from the spec: the Trade-route strategy combines the known
country scores by max, adjusts upward by a route-complexity factor
proportional to the transit-country count, and surfaces every country
absent from the table in an explicit unknown-country condition rather
than substituting a numeric default (§4.1, §7). -/
def tradeRouteAnalyze (origin destination : String) (transit : List String) : TradeRouteResult :=
  { unknownCountries :=
      (origin :: destination :: transit).filter (fun x => (lookupCountryRisk x).isNone)
  , score :=
      if ((origin :: destination :: transit).filterMap lookupCountryRisk).isEmpty then none
      else some (min ((((origin :: destination :: transit).filterMap lookupCountryRisk).foldl
          max 0) * (1 + (transit.length : ℚ) / 10)) 100) }

/-- Claim C5: every country on a route that is absent from the
configured country-risk table appears in the result's explicit
unknown-country condition (so the condition is nonempty and the caller
can distinguish "no risk" from "unknown"), and when no country on the
route is known the strategy reports no numeric score at all rather
than a silent default. -/
theorem tradeRoute_unknown_country (o d : String) (t : List String) (c : String)
    (hc : c ∈ o :: d :: t) (hu : lookupCountryRisk c = none) :
    c ∈ (tradeRouteAnalyze o d t).unknownCountries ∧
    (tradeRouteAnalyze o d t).unknownCountries ≠ [] ∧
    ((∀ x ∈ o :: d :: t, lookupCountryRisk x = none) →
      (tradeRouteAnalyze o d t).score = none) := by
  have hmem : c ∈ (tradeRouteAnalyze o d t).unknownCountries :=
    List.mem_filter.mpr ⟨hc, by simp [hu]⟩
  refine ⟨hmem, List.ne_nil_of_mem hmem, ?_⟩
  intro hall
  have hnil : (o :: d :: t).filterMap lookupCountryRisk = [] :=
    List.filterMap_eq_nil_iff.mpr hall
  simp [tradeRouteAnalyze, hnil]

/-- Witness for C5: the route Atlantis → Germany flags the
unrecognized country "Atlantis" explicitly. -/
theorem tradeRoute_unknown_country_witness :
    "Atlantis" ∈ (tradeRouteAnalyze "Atlantis" "Germany" []).unknownCountries ∧
    (tradeRouteAnalyze "Atlantis" "Germany" []).unknownCountries ≠ [] := by
  have h := tradeRoute_unknown_country "Atlantis" "Germany" [] "Atlantis"
    (by decide) (by decide)
  exact ⟨h.1, h.2.1⟩

/-- Provenance of a risk score: deterministic strategy, AI, or the
traditional strategy substituted after an AI failure. -/
inductive Provenance
  | traditional
  | ai
  | traditionalFallback
deriving DecidableEq

/-- A dimension score as produced inside an agent. -/
structure AgentScore where
  score : ℚ
  level : RiskLevel
  provenance : Provenance
deriving DecidableEq

/-- Outcome of an AI Adapter call: a score, or `unavailable` after
timeout, retry exhaustion, or rate limiting. -/
inductive AIResult
  | ok (s : AgentScore)
  | unavailable
deriving DecidableEq

/-- Status of one agent invocation within a pipeline. -/
inductive InvocationStatus
  | pending
  | running
  | succeeded
  | failed
  | timedOut
deriving DecidableEq

/-- One execution record of one agent within a pipeline. -/
structure AgentInvocation where
  status : InvocationStatus
  result : AgentScore
deriving DecidableEq

/-- Modelled from the spec: an agent invokes the AI Adapter and, when
the adapter reports `AIUnavailable`, substitutes the corresponding
traditional strategy's score tagged with provenance
`traditional-fallback`; the invocation succeeds either way, so the AI
path is never load-bearing for pipeline completion (§4.3, §7). -/
def runAgentWithAI (aiRes : AIResult) (traditional : AgentScore) : AgentInvocation :=
  match aiRes with
  | .ok s => ⟨.succeeded, { s with provenance := .ai }⟩
  | .unavailable => ⟨.succeeded, { traditional with provenance := .traditionalFallback }⟩

/-- Modelled from the spec: the orchestrator drives every agent of the
pipeline to an invocation record in order (§4.6). -/
def runPipelineAgents (agents : List (AIResult × AgentScore)) : List AgentInvocation :=
  agents.map (fun p => runAgentWithAI p.1 p.2)

/-- Claim C6: whenever the AI Adapter reports `AIUnavailable` the agent
substitutes the traditional strategy's score and level tagged
`traditional-fallback` and the invocation still succeeds; a pipeline
run produces one succeeded invocation per agent regardless of AI
availability, so `AIUnavailable` never surfaces as a failure. -/
theorem ai_unavailable_fallback :
    (∀ trad : AgentScore,
       (runAgentWithAI .unavailable trad).status = .succeeded ∧
       (runAgentWithAI .unavailable trad).result.provenance = .traditionalFallback ∧
       (runAgentWithAI .unavailable trad).result.score = trad.score ∧
       (runAgentWithAI .unavailable trad).result.level = trad.level) ∧
    (∀ agents : List (AIResult × AgentScore),
       (runPipelineAgents agents).length = agents.length ∧
       ∀ inv ∈ runPipelineAgents agents, inv.status = .succeeded) := by
  refine ⟨fun trad => ⟨rfl, rfl, rfl, rfl⟩, fun agents => ⟨by simp [runPipelineAgents], ?_⟩⟩
  intro inv hinv
  rcases List.mem_map.mp hinv with ⟨p, _, rfl⟩
  cases p.1 <;> rfl

/-- Witness for C6: a concrete traditional score of 40/`medium`
substituted after an unavailable AI call. -/
theorem ai_unavailable_fallback_witness :
    (runAgentWithAI .unavailable ⟨40, .medium, .traditional⟩).status = .succeeded ∧
    (runAgentWithAI .unavailable ⟨40, .medium, .traditional⟩).result.provenance =
      .traditionalFallback ∧
    (runAgentWithAI .unavailable ⟨40, .medium, .traditional⟩).result.score = 40 := by
  have h := ai_unavailable_fallback.1 ⟨40, .medium, .traditional⟩
  exact ⟨h.1, h.2.1, h.2.2.1⟩

/-- The risk domains an intent can name. -/
inductive Domain
  | scheduling
  | political
  | logistics
  | tariff
  | general
deriving DecidableEq

/-- The specialized agent roles of the pipeline. -/
inductive AgentRole
  | assistant
  | scheduler
  | politicalRisk
  | logistics
  | tariff
  | reporting
deriving DecidableEq

/-- Modelled from the spec: per-domain keyword tables of the Intent
Classifier, with the keyword vocabularies recorded in the system
summary (§4.5). -/
def domainKeywords : List (Domain × List String) :=
  [(.scheduling, ["schedule", "delivery", "timeline", "delay"]),
   (.political, ["political", "government", "policy"]),
   (.logistics, ["logistics", "transport", "shipping"]),
   (.tariff, ["tariff", "trade", "customs"])]

/-- Modelled from the spec: the domains whose keyword table matches the
query text case-insensitively, in table order (§4.5). -/
def matchedDomains (q : String) : List Domain :=
  (domainKeywords.filter (fun p => p.2.any (fun k => matchCount k q != 0))).map Prod.fst

/-- Modelled from the spec: the primary classified domain — the
strongest matching domain, or `general` when no domain keyword
matches (§4.5). -/
def classifyQuery (q : String) : Domain :=
  (matchedDomains q).headD .general

/-- Modelled from the spec: the declarative domain → agent-sequence
table consumed by the orchestrator (§4.6, §9). -/
def pipelineFor : Domain → List AgentRole
  | .general => [.assistant]
  | .scheduling => [.scheduler, .reporting]
  | .political => [.scheduler, .politicalRisk, .reporting]
  | .logistics => [.scheduler, .logistics, .reporting]
  | .tariff => [.scheduler, .tariff, .reporting]

/-- The end-to-end test dataset: 20 schedules of which 6 are
delayed. -/
def exampleSchedules : List Schedule :=
  List.replicate 6 ⟨true, 5⟩ ++ List.replicate 14 ⟨false, 0⟩

/-- Claim C7: the query "What are the schedule risks?" classifies into
the scheduling domain, whose pipeline is Scheduler then Reporting; on
the dataset of 20 schedules with 6 delayed the delay percentage is
6 / 20 × 100 = 30, which the default bands map to level `medium`. -/
theorem schedule_risk_end_to_end :
    classifyQuery "What are the schedule risks?" = .scheduling ∧
    pipelineFor (classifyQuery "What are the schedule risks?") =
      [.scheduler, .reporting] ∧
    exampleSchedules.length = 20 ∧
    (exampleSchedules.filter (fun s => s.delayed)).length = 6 ∧
    delayPercentage exampleSchedules = 30 ∧
    scoreToLevel (delayPercentage exampleSchedules) = .medium := by
  have hq : classifyQuery "What are the schedule risks?" = .scheduling := by decide
  have h20 : exampleSchedules.length = 20 := by decide
  have h6 : (exampleSchedules.filter (fun s => s.delayed)).length = 6 := by decide
  have h30 : delayPercentage exampleSchedules = 30 := by
    simp only [delayPercentage, h20, h6]
    norm_num
  refine ⟨hq, ?_, h20, h6, h30, ?_⟩
  · rw [hq]
    rfl
  · rw [h30]
    norm_num [scoreToLevel, classifyMetric, RISK_THRESHOLDS]

/-- Claim C8: a query matching no domain keyword — including the empty
query — classifies into the `general` domain without failing, whose
pipeline is the Assistant agent only and therefore terminates the
thread in exactly one invocation; in particular
"Hello, can you help me?" is classified `general`. -/
theorem general_query_routing :
    (∀ q : String, matchedDomains q = [] → classifyQuery q = .general) ∧
    classifyQuery "Hello, can you help me?" = .general ∧
    classifyQuery "" = .general ∧
    pipelineFor .general = [.assistant] ∧
    (pipelineFor .general).length = 1 := by
  refine ⟨?_, by decide, by decide, rfl, rfl⟩
  intro q h
  simp [classifyQuery, h]

/-- Witness for C8: the keyword-free query "Good morning!"
classifies as `general` through the no-match rule. -/
theorem general_query_routing_witness :
    classifyQuery "Good morning!" = Domain.general :=
  general_query_routing.1 "Good morning!" (by decide)

/-- Frontend `getRiskLevelColor` (QueryInterface): a switch over the
risk-level value with a default branch; the argument is `Option String`
so that an `undefined` level is the `none` case, which — like any
unrecognized string — falls through to the default branch. -/
def getRiskLevelColor (level : Option String) : String :=
  if level = some "critical" then "text-red-600 bg-red-50 border-red-200"
  else if level = some "high" then "text-orange-600 bg-orange-50 border-orange-200"
  else if level = some "medium" then "text-yellow-600 bg-yellow-50 border-yellow-200"
  else if level = some "low" then "text-green-600 bg-green-50 border-green-200"
  else "text-gray-600 bg-gray-50 border-gray-200"

/-- Frontend `getRiskLevelBadgeVariant` (Dashboard and
EquipmentManagement, identical in both): switch with a default branch
returning the `outline` variant. -/
def getRiskLevelBadgeVariant (level : Option String) : String :=
  if level = some "critical" then "destructive"
  else if level = some "high" then "destructive"
  else if level = some "medium" then "secondary"
  else if level = some "low" then "default"
  else "outline"

/-- Claim C9: the risk-level styling functions are total — every input,
including strings outside {low, medium, high, critical} and the
undefined value, yields one of the finitely many defined styles — and
every unrecognized input takes the default branch. -/
theorem risk_level_styling_total :
    (∀ level : Option String,
       getRiskLevelColor level ∈
         ["text-red-600 bg-red-50 border-red-200",
          "text-orange-600 bg-orange-50 border-orange-200",
          "text-yellow-600 bg-yellow-50 border-yellow-200",
          "text-green-600 bg-green-50 border-green-200",
          "text-gray-600 bg-gray-50 border-gray-200"] ∧
       getRiskLevelBadgeVariant level ∈
         ["destructive", "secondary", "default", "outline"]) ∧
    (∀ level : Option String,
       level ∉ ([some "critical", some "high", some "medium", some "low"] :
         List (Option String)) →
       getRiskLevelColor level = "text-gray-600 bg-gray-50 border-gray-200" ∧
       getRiskLevelBadgeVariant level = "outline") := by
  constructor
  · intro level
    constructor <;>
      · simp only [getRiskLevelColor, getRiskLevelBadgeVariant]
        split_ifs <;> simp
  · intro level h
    simp only [List.mem_cons, List.not_mem_nil, or_false] at h
    push_neg at h
    obtain ⟨h1, h2, h3, h4⟩ := h
    constructor <;>
      simp [getRiskLevelColor, getRiskLevelBadgeVariant, h1, h2, h3, h4]

/-- Witness for C9: the undefined risk level takes the default
style and the default badge variant. -/
theorem risk_level_styling_total_witness :
    getRiskLevelColor none = "text-gray-600 bg-gray-50 border-gray-200" ∧
    getRiskLevelBadgeVariant none = "outline" :=
  risk_level_styling_total.2 none (by decide)

/-- A chat message of the QueryInterface conversation list. -/
structure ChatMessage where
  msgType : String
  content : String
deriving DecidableEq

/-- Outcome of the `fetch` to the analyze endpoint: a parsed result or
a thrown error message. -/
inductive FetchOutcome
  | ok (result : String)
  | err (message : String)
deriving DecidableEq

/-- The component state of `QueryInterface` that `handleSubmit`
touches. -/
structure QueryInterfaceState where
  query : String
  messages : List ChatMessage
  loading : Bool
  error : Option String
deriving DecidableEq

/-- JavaScript `String.prototype.trim`: drop whitespace from both ends
(structural embedding so concrete instances evaluate). -/
def jsTrim (s : String) : String :=
  ⟨((s.data.dropWhile Char.isWhitespace).reverse.dropWhile Char.isWhitespace).reverse⟩

/-- Frontend `handleSubmit` of `QueryInterface`: guard
`if (!query.trim()) return;`, then append the user message, set
loading, clear the error, issue the request, and on resolution append
the bot message or record the error, finally clearing loading and the
input.  Returns the new state and whether a request was issued. -/
def handleSubmit (s : QueryInterfaceState) (outcome : FetchOutcome) :
    QueryInterfaceState × Bool :=
  if jsTrim s.query = "" then (s, false)
  else
    let afterUser : QueryInterfaceState :=
      { s with messages := s.messages ++ [⟨"user", s.query⟩], loading := true, error := none }
    match outcome with
    | .ok result =>
        ({ afterUser with
            messages := afterUser.messages ++ [⟨"bot", result⟩],
            loading := false, query := "" }, true)
    | .err m =>
        ({ afterUser with error := some m, loading := false, query := "" }, true)

/-- Claim C10: submitting the form with a query whose trimmed form is
empty changes nothing — the message list, loading flag and error are
untouched, the whole state is unchanged, and no request is issued to
the analyze endpoint. -/
theorem empty_query_submit_noop (s : QueryInterfaceState) (outcome : FetchOutcome)
    (h : jsTrim s.query = "") :
    (handleSubmit s outcome).1.messages = s.messages ∧
    (handleSubmit s outcome).1.loading = s.loading ∧
    (handleSubmit s outcome).1.error = s.error ∧
    (handleSubmit s outcome).1 = s ∧
    (handleSubmit s outcome).2 = false := by
  simp [handleSubmit, h]

/-- Witness for C10: a whitespace-only query on a representative state
leaves the state unchanged and issues no request. -/
theorem empty_query_submit_noop_witness :
    (handleSubmit ⟨"   ", [⟨"user", "hi"⟩], false, none⟩ (.ok "result")).1 =
      ⟨"   ", [⟨"user", "hi"⟩], false, none⟩ ∧
    (handleSubmit ⟨"   ", [⟨"user", "hi"⟩], false, none⟩ (.ok "result")).2 = false := by
  have h := empty_query_submit_noop ⟨"   ", [⟨"user", "hi"⟩], false, none⟩
    (.ok "result") (by decide)
  exact ⟨h.2.2.2.1, h.2.2.2.2⟩

end SupplyGuard
